import Mathlib

/-!
Verification of `src/qt creator/assets/menuplugin.cpp`, a Qt Designer custom
widget plugin for the widget class `menu`.  The plugin object carries a single
boolean member `m_initialized`; every method is embedded as an explicit
state-passing function `menuPlugin → (result × menuPlugin)` so that purity and
frame conditions are facts about the embedding rather than assumptions.
-/

/-- Abstract model of a `QWidget*` handle: only its identity matters here. -/
structure QWidget where
  id : Nat
deriving DecidableEq, Repr

/-- Abstract model of a `QDesignerFormEditorInterface*` handle. -/
structure QDesignerFormEditorInterface where
  id : Nat
deriving DecidableEq, Repr

/-- Model of `QIcon`: either a null icon (the default-constructed `QIcon()`)
or an icon with some content, abstracted as a name. -/
structure QIcon where
  iconName : Option String
deriving DecidableEq, Repr

/-- A default-constructed `QIcon()` is the null icon. -/
def QIcon.defaultCtor : QIcon :=
  { iconName := none }

/-- Modelled from the spec: the `menu` widget class (declared in `menu.h`,
which is not under `src/`) is, per the spec, "the wrapped widget type,
parented to a caller-supplied container"; its construction is modelled as
recording the caller-supplied parent widget. -/
structure menu where
  parentW : QWidget
deriving DecidableEq, Repr

/-- Modelled from the spec: `new menu(parent)` constructs a menu widget
whose parent is the given widget. -/
def menu.mkNew (parent : QWidget) : menu :=
  { parentW := parent }

/-- The plugin object's state: its single data member `m_initialized`
(`menuPlugin::initialize` sets it; `menuPlugin::isInitialized` reads it). -/
structure menuPlugin where
  m_initialized : Bool
deriving DecidableEq, Repr

/-- `menuPlugin::initialize(QDesignerFormEditorInterface *core)`: returns
early if `m_initialized` is already set, otherwise sets it.  The `core`
argument is commented out in the source and never read. -/
def menuPlugin.initializeImpl (core : QDesignerFormEditorInterface)
    (s : menuPlugin) : menuPlugin :=
  if s.m_initialized then s
  else { s with m_initialized := true }

/-- `menuPlugin::isInitialized() const`: returns `m_initialized`. -/
def menuPlugin.isInitialized (s : menuPlugin) : Bool × menuPlugin :=
  (s.m_initialized, s)

/-- `menuPlugin::createWidget(QWidget *parent)`: returns `new menu(parent)`.
The body touches no member of the plugin. -/
def menuPlugin.createWidget (s : menuPlugin) (parent : QWidget) :
    menu × menuPlugin :=
  (menu.mkNew parent, s)

/-- `menuPlugin::name() const`: returns `QLatin1String("menu")`. -/
def menuPlugin.name (s : menuPlugin) : String × menuPlugin :=
  ("menu", s)

/-- `menuPlugin::group() const`: returns `QLatin1String("")`. -/
def menuPlugin.group (s : menuPlugin) : String × menuPlugin :=
  ("", s)

/-- `menuPlugin::icon() const`: returns `QIcon()`. -/
def menuPlugin.icon (s : menuPlugin) : QIcon × menuPlugin :=
  (QIcon.defaultCtor, s)

/-- `menuPlugin::toolTip() const`: returns `QLatin1String("")`. -/
def menuPlugin.toolTip (s : menuPlugin) : String × menuPlugin :=
  ("", s)

/-- `menuPlugin::whatsThis() const`: returns `QLatin1String("")`. -/
def menuPlugin.whatsThis (s : menuPlugin) : String × menuPlugin :=
  ("", s)

/-- `menuPlugin::isContainer() const`: returns `false`. -/
def menuPlugin.isContainer (s : menuPlugin) : Bool × menuPlugin :=
  (false, s)

/-- The raw string literal returned by `menuPlugin::domXml()`. -/
def menuPlugin.domXmlText : String :=
  "<widget class=\"menu\" name=\"menu\">\n</widget>"

/-- `menuPlugin::domXml() const`: returns the fixed XML fragment. -/
def menuPlugin.domXml (s : menuPlugin) : String × menuPlugin :=
  (menuPlugin.domXmlText, s)

/-- `menuPlugin::includeFile() const`: returns `QLatin1String("menu.h")`. -/
def menuPlugin.includeFile (s : menuPlugin) : String × menuPlugin :=
  ("menu.h", s)

/-- The plugin's public operations, for reasoning about call histories. -/
inductive Op where
  | callInit (core : QDesignerFormEditorInterface)
  | callIsInitialized
  | callCreateWidget (parent : QWidget)
  | callName
  | callGroup
  | callIcon
  | callToolTip
  | callWhatsThis
  | callIsContainer
  | callDomXml
  | callIncludeFile
deriving DecidableEq, Repr

/-- Effect of one operation on the plugin state, taken from the state
component of each embedded method. -/
def menuPlugin.step (s : menuPlugin) : Op → menuPlugin
  | Op.callInit core => menuPlugin.initializeImpl core s
  | Op.callIsInitialized => (menuPlugin.isInitialized s).2
  | Op.callCreateWidget parent => (menuPlugin.createWidget s parent).2
  | Op.callName => (menuPlugin.name s).2
  | Op.callGroup => (menuPlugin.group s).2
  | Op.callIcon => (menuPlugin.icon s).2
  | Op.callToolTip => (menuPlugin.toolTip s).2
  | Op.callWhatsThis => (menuPlugin.whatsThis s).2
  | Op.callIsContainer => (menuPlugin.isContainer s).2
  | Op.callDomXml => (menuPlugin.domXml s).2
  | Op.callIncludeFile => (menuPlugin.includeFile s).2

/-- State reached after a sequence of operations. -/
def menuPlugin.run (s : menuPlugin) (ops : List Op) : menuPlugin :=
  ops.foldl menuPlugin.step s

/-- Checks whether `pat` is an initial segment of `l`. -/
def listStartsWith : List Char → List Char → Bool
  | [], _ => true
  | _ :: _, [] => false
  | a :: as, b :: bs => a == b && listStartsWith as bs

/-- The suffix of `l` following the first occurrence of `pat`, if any. -/
def suffixAfter (pat : List Char) : List Char → Option (List Char)
  | [] => if listStartsWith pat [] then some [] else none
  | c :: cs =>
      if listStartsWith pat (c :: cs) then some (List.drop pat.length (c :: cs))
      else suffixAfter pat cs

/-- The characters up to the next double quote. -/
def takeUntilQuote : List Char → List Char
  | [] => []
  | c :: cs => if c == '"' then [] else c :: takeUntilQuote cs

/-- The value of XML attribute `attr` in the text `s`: the characters between
the first `attr="` and the following quote. -/
def xmlAttrValue (attr : String) (s : String) : Option String :=
  (suffixAfter (attr.data ++ ('=' :: '"' :: [])) s.data).map
    (fun rest => String.mk (takeUntilQuote rest))

/-- The name of the element tag opening the text `s`, when `s` starts with
an opening angle bracket: the characters up to the first space. -/
def xmlTagName (s : String) : Option String :=
  match s.data with
  | '<' :: rest => some (String.mk (rest.takeWhile (fun c => c ≠ ' ' && c ≠ '>')))
  | _ => none

/-- Each single operation preserves a set `m_initialized` flag. -/
theorem menuPlugin.step_preserves_flag (s : menuPlugin) (op : Op)
    (h : s.m_initialized = true) : (menuPlugin.step s op).m_initialized = true := by
  cases op <;>
    simp [menuPlugin.step, menuPlugin.initializeImpl, menuPlugin.isInitialized,
      menuPlugin.createWidget, menuPlugin.name, menuPlugin.group, menuPlugin.icon,
      menuPlugin.toolTip, menuPlugin.whatsThis, menuPlugin.isContainer,
      menuPlugin.domXml, menuPlugin.includeFile, h]

/-- C1: `initialize` is idempotent: after one call, a second call (with any
core argument) leaves the state exactly as it was, and the early-return guard
`m_initialized` is already set at the second call. -/
theorem menuPlugin.initialize_idempotent (s : menuPlugin)
    (core core' : QDesignerFormEditorInterface) :
    menuPlugin.initializeImpl core' (menuPlugin.initializeImpl core s) =
      menuPlugin.initializeImpl core s ∧
    (menuPlugin.initializeImpl core s).m_initialized = true := by
  cases s with
  | mk b =>
    cases b <;> simp [menuPlugin.initializeImpl]

/-- C2: after `initialize` runs (on any state, with any core argument),
`isInitialized` returns `true`; and on any state, `isInitialized` returns
exactly the value of the `m_initialized` flag. -/
theorem menuPlugin.isInitialized_after_initialize (s s0 : menuPlugin)
    (core : QDesignerFormEditorInterface) :
    (menuPlugin.isInitialized (menuPlugin.initializeImpl core s)).1 = true ∧
    (menuPlugin.isInitialized s0).1 = s0.m_initialized := by
  refine ⟨?_, rfl⟩
  cases s with
  | mk b =>
    cases b <;> simp [menuPlugin.initializeImpl, menuPlugin.isInitialized]

/-- C3: once `m_initialized` is true, no sequence of plugin operations ever
makes it false again. -/
theorem menuPlugin.flag_never_cleared (ops : List Op) :
    ∀ s : menuPlugin, s.m_initialized = true →
      (menuPlugin.run s ops).m_initialized = true := by
  induction ops with
  | nil => intro s h; exact h
  | cons op rest ih =>
      intro s h
      have hstep := menuPlugin.step_preserves_flag s op h
      simpa [menuPlugin.run, List.foldl] using ih (menuPlugin.step s op) hstep

/-- Witness for C3 at a concrete already-initialized state and a concrete
operation sequence. -/
theorem menuPlugin.flag_never_cleared_witness :
    (menuPlugin.mk true).m_initialized = true ∧
    (menuPlugin.run (menuPlugin.mk true)
      [Op.callName, Op.callInit (QDesignerFormEditorInterface.mk 0),
       Op.callIsInitialized]).m_initialized = true :=
  ⟨by decide,
   menuPlugin.flag_never_cleared
     [Op.callName, Op.callInit (QDesignerFormEditorInterface.mk 0),
      Op.callIsInitialized]
     (menuPlugin.mk true) (by decide)⟩

/-- C4: every accessor returns a fixed constant, in every plugin state:
the same value regardless of `m_initialized` or of prior operations. -/
theorem menuPlugin.accessors_constant (s : menuPlugin) :
    (menuPlugin.name s).1 = "menu" ∧
    (menuPlugin.group s).1 = "" ∧
    (menuPlugin.icon s).1 = QIcon.defaultCtor ∧
    (menuPlugin.toolTip s).1 = "" ∧
    (menuPlugin.whatsThis s).1 = "" ∧
    (menuPlugin.isContainer s).1 = false ∧
    (menuPlugin.domXml s).1 = menuPlugin.domXmlText ∧
    (menuPlugin.includeFile s).1 = "menu.h" :=
  ⟨rfl, rfl, rfl, rfl, rfl, rfl, rfl, rfl⟩

/-- C5: `createWidget` returns a newly constructed `menu` whose parent is the
caller-supplied argument, and leaves the plugin state (in particular
`m_initialized`) unchanged. -/
theorem menuPlugin.createWidget_spec (s : menuPlugin) (parent : QWidget) :
    (menuPlugin.createWidget s parent).1 = menu.mkNew parent ∧
    (menuPlugin.createWidget s parent).1.parentW = parent ∧
    (menuPlugin.createWidget s parent).2 = s :=
  ⟨rfl, rfl, rfl⟩

/-- C6: the plugin's metadata identifies the widget class `menu`: `name()`
returns `"menu"`, the XML fragment of `domXml()` opens a `widget` element
whose `class` and `name` attributes are both `"menu"`, and `includeFile()`
returns `"menu.h"`. -/
theorem menuPlugin.metadata_identifies_menu (s : menuPlugin) :
    (menuPlugin.name s).1 = "menu" ∧
    xmlTagName (menuPlugin.domXml s).1 = some "widget" ∧
    xmlAttrValue "class" (menuPlugin.domXml s).1 = some "menu" ∧
    xmlAttrValue "name" (menuPlugin.domXml s).1 = some "menu" ∧
    (menuPlugin.includeFile s).1 = "menu.h" := by
  refine ⟨rfl, ?_, ?_, ?_, rfl⟩
  · show xmlTagName menuPlugin.domXmlText = some "widget"
    decide
  · show xmlAttrValue "class" menuPlugin.domXmlText = some "menu"
    decide
  · show xmlAttrValue "name" menuPlugin.domXmlText = some "menu"
    decide

/-- C7: all accessor methods and `isInitialized` are pure: each leaves the
plugin state unchanged in every state. -/
theorem menuPlugin.accessors_pure (s : menuPlugin) :
    (menuPlugin.isInitialized s).2 = s ∧
    (menuPlugin.name s).2 = s ∧
    (menuPlugin.group s).2 = s ∧
    (menuPlugin.icon s).2 = s ∧
    (menuPlugin.toolTip s).2 = s ∧
    (menuPlugin.whatsThis s).2 = s ∧
    (menuPlugin.isContainer s).2 = s ∧
    (menuPlugin.domXml s).2 = s ∧
    (menuPlugin.includeFile s).2 = s :=
  ⟨rfl, rfl, rfl, rfl, rfl, rfl, rfl, rfl, rfl⟩

/-- C8: the resulting state of `initialize` is independent of the core
argument: any two core arguments produce identical states. -/
theorem menuPlugin.initialize_core_independent (s : menuPlugin)
    (core₁ core₂ : QDesignerFormEditorInterface) :
    menuPlugin.initializeImpl core₁ s = menuPlugin.initializeImpl core₂ s :=
  rfl

/-- C9: `isContainer` returns `false` in every plugin state. -/
theorem menuPlugin.isContainer_false (s : menuPlugin) :
    (menuPlugin.isContainer s).1 = false :=
  rfl

/-- C10: the optional display metadata is empty in every plugin state:
`group`, `toolTip` and `whatsThis` return the empty string and `icon`
returns a default-constructed (null) icon. -/
theorem menuPlugin.display_metadata_empty (s : menuPlugin) :
    (menuPlugin.group s).1 = "" ∧
    (menuPlugin.toolTip s).1 = "" ∧
    (menuPlugin.whatsThis s).1 = "" ∧
    (menuPlugin.icon s).1 = QIcon.defaultCtor ∧
    (menuPlugin.icon s).1.iconName = none :=
  ⟨rfl, rfl, rfl, rfl, rfl⟩
